import Mathlib

/-
  Shallow embedding of the Arduino sketch 06_LED_Blink_SW.ino
  (src/export/06_LED_Blink_SW.ino).

  The sketch is a polling loop over five global variables
  (mode, lastSwState, lastSwTime, ledTimer, stepIndex) and three
  functions readSwitch / updateState / outputLEDs.  We model the
  globals as an explicit record `State` threaded through the
  functions.  Pin levels (HIGH/LOW) become booleans.  `millis()`
  returns `unsigned long` (32-bit on AVR); we model each loop
  iteration as receiving the current millis value `t : Nat`
  (every call to millis() within one iteration returns the same
  value), and `unsigned long` subtraction as `sub32`, subtraction
  modulo 2^32.  `digitalRead(SW_PIN)` becomes the iteration's
  boolean pin input; `digitalWrite` to the three LED pins becomes
  a `Bool × Bool × Bool` result of `outputLEDs`.
-/

namespace LedBlinkSW

/-- Arduino HIGH pin level, modelled as `true`. -/
def HIGH : Bool := true

/-- Arduino LOW pin level, modelled as `false`. -/
def LOW : Bool := false

/-- Constant `DEBOUNCE_MS = 20` (`const unsigned long`, line 22). -/
def DEBOUNCE_MS : Nat := 20

/-- Step constant `STEP_OFF = 0` (line 33): all LEDs off. -/
def STEP_OFF : Int := 0

/-- Step constant `STEP_LED1 = 1` (line 34). -/
def STEP_LED1 : Int := 1

/-- Step constant `STEP_LED2 = 2` (line 35). -/
def STEP_LED2 : Int := 2

/-- Step constant `STEP_LED3 = 3` (line 36). -/
def STEP_LED3 : Int := 3

/-- Step constant `STEP_ALL = 4` (line 37): all LEDs on. -/
def STEP_ALL : Int := 4

/-- Constant `LED_INTERVAL_MS = 300` (`const unsigned long`, line 44). -/
def LED_INTERVAL_MS : Nat := 300

/-- Subtraction of 32-bit unsigned values (`unsigned long` on AVR):
`a - b` computed modulo 2^32. -/
def sub32 (a b : Nat) : Nat := (a + 4294967296 - b) % 4294967296

/-- The five global variables of the sketch (lines 55-60). -/
structure State where
  mode : Bool
  lastSwState : Bool
  lastSwTime : Nat
  ledTimer : Nat
  stepIndex : Int
deriving DecidableEq, Repr

/-- The initial values of the globals (lines 55-60):
`mode = false`, `lastSwState = HIGH`, `lastSwTime = 0`,
`ledTimer = 0`, `stepIndex = STEP_OFF`. -/
def initState : State :=
  { mode := false, lastSwState := HIGH, lastSwTime := 0,
    ledTimer := 0, stepIndex := STEP_OFF }

/-- Function `readSwitch()` (lines 70-90).  `swPin` is the value
`digitalRead(SW_PIN)` returns this iteration, `t` the value of
`millis()`.  Returns the `pressed` result together with the updated
globals: if the reading differs from `lastSwState`, `lastSwTime` is
set to `t` (debounce start); `pressed` is true when
`millis() - lastSwTime > DEBOUNCE_MS` and a HIGH-to-LOW edge is seen
(`lastSwState == HIGH && now == LOW`); finally `lastSwState := now`. -/
def readSwitch (s : State) (swPin : Bool) (t : Nat) : Bool × State :=
  let now := swPin
  let lastSwTime1 := if now != s.lastSwState then t else s.lastSwTime
  let pressed :=
    if DEBOUNCE_MS < sub32 t lastSwTime1 then
      s.lastSwState == HIGH && now == LOW
    else
      false
  (pressed, { s with lastSwState := now, lastSwTime := lastSwTime1 })

/-- Function `updateState(bool swPressed)` (lines 101-122).  On a press, `mode`
is toggled, `stepIndex` reset to `STEP_OFF`, `ledTimer` set to
`millis()`.  Then, in lit mode, if `now - ledTimer >= LED_INTERVAL_MS`
the timer is reloaded and `stepIndex` incremented, wrapping to
`STEP_OFF` when it exceeds `STEP_ALL`. -/
def updateState (s : State) (swPressed : Bool) (t : Nat) : State :=
  let s1 :=
    if swPressed then
      { s with mode := !s.mode, stepIndex := STEP_OFF, ledTimer := t }
    else
      s
  if s1.mode then
    if LED_INTERVAL_MS ≤ sub32 t s1.ledTimer then
      let step1 := s1.stepIndex + 1
      let step2 := if step1 > STEP_ALL then STEP_OFF else step1
      { s1 with ledTimer := t, stepIndex := step2 }
    else
      s1
  else
    s1

/-- Function `outputLEDs()` (lines 132-146).  Returns the levels written to
`(LED1_PIN, LED2_PIN, LED3_PIN)`: all LOW when `mode` is false,
otherwise each LED is HIGH exactly on its own step or on `STEP_ALL`. -/
def outputLEDs (s : State) : Bool × Bool × Bool :=
  if !s.mode then
    (LOW, LOW, LOW)
  else
    ((s.stepIndex == STEP_LED1 || s.stepIndex == STEP_ALL),
     (s.stepIndex == STEP_LED2 || s.stepIndex == STEP_ALL),
     (s.stepIndex == STEP_LED3 || s.stepIndex == STEP_ALL))

/-- One iteration of `loop()` (lines 175-179): read the switch, update
the state, output the LEDs.  `pin` is this iteration's switch reading
and `t` this iteration's `millis()` value. -/
def loopStep (s : State) (pin : Bool) (t : Nat) : State × (Bool × Bool × Bool) :=
  let r := readSwitch s pin t
  let s2 := updateState r.2 r.1 t
  (s2, outputLEDs s2)

/-- States the program can be in at a loop boundary: the initial
globals, closed under one loop iteration with an arbitrary switch
reading and millis value. -/
inductive Reachable : State → Prop where
  | init : Reachable initState
  | step : ∀ s pin t, Reachable s → Reachable (loopStep s pin t).1

/-- The LED outputs emitted along a run of the loop from state `s` on
a list of (switch reading, millis value) inputs. -/
def ledTrace (s : State) : List (Bool × Nat) → List (Bool × Bool × Bool)
  | [] => []
  | (pin, t) :: rest => (loopStep s pin t).2 :: ledTrace (loopStep s pin t).1 rest

/- ------------------------------------------------------------------
   Helper lemmas
   ------------------------------------------------------------------ -/

lemma sub32_self (t : Nat) : sub32 t t = 0 := by
  unfold sub32; omega

/-- The debounce slip: the HIGH-to-LOW edge test at line 83 requires
`now ≠ lastSwState`, but that very condition has just reset
`lastSwTime` to the current `millis()` at line 75, so the elapsed-time
guard at line 81 reads 0 and can never exceed `DEBOUNCE_MS`; hence
`pressed` is false on every call. -/
lemma readSwitch_fst (s : State) (pin : Bool) (t : Nat) :
    (readSwitch s pin t).1 = false := by
  cases s with
  | mk mode lastSwState lastSwTime ledTimer stepIndex =>
    cases pin <;> cases lastSwState <;>
      simp [readSwitch, HIGH, LOW, sub32_self, DEBOUNCE_MS]

lemma readSwitch_snd_mode (s : State) (pin : Bool) (t : Nat) :
    (readSwitch s pin t).2.mode = s.mode := rfl

lemma readSwitch_snd_ledTimer (s : State) (pin : Bool) (t : Nat) :
    (readSwitch s pin t).2.ledTimer = s.ledTimer := rfl

lemma readSwitch_snd_stepIndex (s : State) (pin : Bool) (t : Nat) :
    (readSwitch s pin t).2.stepIndex = s.stepIndex := rfl

lemma updateState_off (s : State) (t : Nat) (h : s.mode = false) :
    updateState s false t = s := by
  simp [updateState, h]

lemma outputLEDs_off (s : State) (h : s.mode = false) :
    outputLEDs s = (LOW, LOW, LOW) := by
  simp [outputLEDs, h]

/-- Since `readSwitch` never reports a press, `mode` is never toggled
and `stepIndex` never leaves `STEP_OFF`: every reachable state has
`mode = false` and `stepIndex = STEP_OFF`. -/
lemma reachable_dark (s : State) (h : Reachable s) :
    s.mode = false ∧ s.stepIndex = STEP_OFF := by
  induction h with
  | init => exact ⟨rfl, rfl⟩
  | step s pin t _ ih =>
    have hfst := readSwitch_fst s pin t
    have hoff : updateState (readSwitch s pin t).2 false t = (readSwitch s pin t).2 :=
      updateState_off _ t (by rw [readSwitch_snd_mode]; exact ih.1)
    constructor
    · show (loopStep s pin t).1.mode = false
      simp only [loopStep, hfst, hoff, readSwitch_snd_mode]
      exact ih.1
    · show (loopStep s pin t).1.stepIndex = STEP_OFF
      simp only [loopStep, hfst, hoff, readSwitch_snd_stepIndex]
      exact ih.2

lemma ledTrace_dark (ins : List (Bool × Nat)) :
    ∀ s : State, Reachable s →
      ledTrace s ins = ins.map (fun _ => (LOW, LOW, LOW)) := by
  induction ins with
  | nil => intro s _; rfl
  | cons p rest ih =>
    intro s hs
    obtain ⟨pin, t⟩ := p
    have hnext : Reachable (loopStep s pin t).1 := Reachable.step s pin t hs
    have hout : (loopStep s pin t).2 = (LOW, LOW, LOW) :=
      outputLEDs_off _ (reachable_dark _ hnext).1
    simp only [ledTrace, List.map, hout, ih _ hnext]

/- ------------------------------------------------------------------
   Claim theorems
   ------------------------------------------------------------------ -/

/-- Claim C1: the claim says readSwitch returns true exactly when a
HIGH-to-LOW edge is accepted after the observed state has been stable
for more than DEBOUNCE_MS.  The code does not do this: the edge test
requires `now ≠ lastSwState`, and that very condition has just reset
`lastSwTime` to the current millis value, so the elapsed-time guard is
checked against a zero elapsed time in the only calls that could
report a press.  Consequently readSwitch returns false on every call,
contradicting the claim (and the function's own header comment) that a
debounced press is reported. -/
theorem claim_C1_readSwitch_never_reports_press
    (s : State) (pin : Bool) (t : Nat) :
    (readSwitch s pin t).1 = false :=
  readSwitch_fst s pin t

/-- Claim C2: calling updateState with swPressed = true toggles mode, resets
stepIndex to STEP_OFF and sets ledTimer to the current millis value,
leaving the switch-debounce globals untouched; the subsequent interval
test cannot fire in the same call because the timer was just reloaded. -/
theorem claim_C2_press_toggles_and_resets (s : State) (t : Nat) :
    updateState s true t =
      { mode := !s.mode, lastSwState := s.lastSwState,
        lastSwTime := s.lastSwTime, ledTimer := t, stepIndex := STEP_OFF } := by
  cases hm : s.mode <;>
    simp [updateState, hm, sub32_self, LED_INTERVAL_MS, STEP_OFF]

/-- Claim C7: outputLEDs drives LED k HIGH exactly when mode is true and
stepIndex is STEP_LEDk or STEP_ALL; in particular all three pins are
LOW whenever mode is false, and whenever stepIndex is STEP_OFF. -/
theorem claim_C7_led_levels (s : State) :
    outputLEDs s =
      ((s.mode && (s.stepIndex == STEP_LED1 || s.stepIndex == STEP_ALL)),
       (s.mode && (s.stepIndex == STEP_LED2 || s.stepIndex == STEP_ALL)),
       (s.mode && (s.stepIndex == STEP_LED3 || s.stepIndex == STEP_ALL))) ∧
    (s.mode = false → outputLEDs s = (LOW, LOW, LOW)) ∧
    (s.stepIndex = STEP_OFF → outputLEDs s = (LOW, LOW, LOW)) := by
  refine ⟨?_, ?_, ?_⟩
  · cases hm : s.mode <;> simp [outputLEDs, hm, LOW]
  · intro hm; exact outputLEDs_off s hm
  · intro hstep
    cases hm : s.mode <;>
      simp [outputLEDs, hm, hstep, LOW, STEP_OFF, STEP_LED1, STEP_LED2,
        STEP_LED3, STEP_ALL]

/-- Claim C7 witness: the LED-level equation evaluated at a lit state on
step 2, and the all-LOW conclusions at a dark state and at a lit state
on STEP_OFF. -/
theorem claim_C7_led_levels_witness :
    outputLEDs ⟨true, HIGH, 0, 0, STEP_LED2⟩ = (false, true, false) ∧
    outputLEDs initState = (LOW, LOW, LOW) ∧
    outputLEDs ⟨true, HIGH, 7, 42, STEP_OFF⟩ = (LOW, LOW, LOW) := by
  refine ⟨?_, ?_, ?_⟩
  · have h := (claim_C7_led_levels ⟨true, HIGH, 0, 0, STEP_LED2⟩).1
    rw [h]; decide
  · exact (claim_C7_led_levels initState).2.1 rfl
  · exact (claim_C7_led_levels ⟨true, HIGH, 7, 42, STEP_OFF⟩).2.2 rfl

/-- Claim C3: every reachable state keeps stepIndex between STEP_OFF and
STEP_ALL, and whenever updateState advances the step in lit mode (no
press, interval elapsed) it replaces a stepIndex in that range by its
successor, wrapping from STEP_ALL back to STEP_OFF. -/
theorem claim_C3_step_range_and_wrap :
    (∀ s : State, Reachable s →
      STEP_OFF ≤ s.stepIndex ∧ s.stepIndex ≤ STEP_ALL) ∧
    (∀ (s : State) (t : Nat),
      STEP_OFF ≤ s.stepIndex → s.stepIndex ≤ STEP_ALL →
      s.mode = true → LED_INTERVAL_MS ≤ sub32 t s.ledTimer →
      (updateState s false t).stepIndex =
        if s.stepIndex = STEP_ALL then STEP_OFF else s.stepIndex + 1) := by
  constructor
  · intro s hs
    rw [(reachable_dark s hs).2]
    exact ⟨le_refl _, by decide⟩
  · intro s t h0 h4 hm ht
    have h : (updateState s false t).stepIndex =
        if s.stepIndex + 1 > STEP_ALL then STEP_OFF else s.stepIndex + 1 := by
      simp [updateState, hm, ht]
    rw [h]
    simp only [STEP_OFF, STEP_ALL] at h0 h4 ⊢
    split_ifs <;> omega

/-- Claim C3 witness: the range bound at the initial state, and the wrap
from STEP_ALL back to STEP_OFF at a lit state whose interval has
elapsed. -/
theorem claim_C3_step_range_and_wrap_witness :
    (STEP_OFF ≤ initState.stepIndex ∧ initState.stepIndex ≤ STEP_ALL) ∧
    (updateState ⟨true, HIGH, 0, 0, STEP_ALL⟩ false 300).stepIndex = STEP_OFF := by
  refine ⟨claim_C3_step_range_and_wrap.1 initState Reachable.init, ?_⟩
  have h := claim_C3_step_range_and_wrap.2 ⟨true, HIGH, 0, 0, STEP_ALL⟩ 300
    (by decide) (by decide) rfl (by decide)
  simpa using h

/-- Claim C4: with no press and mode true, updateState changes stepIndex
exactly when the modular elapsed time since ledTimer reaches
LED_INTERVAL_MS, and then it also reloads ledTimer with the current
millis value; with no press and mode false, stepIndex never changes. -/
theorem claim_C4_interval_advance (s : State) (t : Nat) :
    (s.mode = true →
      (((updateState s false t).stepIndex ≠ s.stepIndex) ↔
        LED_INTERVAL_MS ≤ sub32 t s.ledTimer) ∧
      (LED_INTERVAL_MS ≤ sub32 t s.ledTimer →
        (updateState s false t).ledTimer = t)) ∧
    (s.mode = false → (updateState s false t).stepIndex = s.stepIndex) := by
  constructor
  · intro hm
    constructor
    · constructor
      · intro hne
        by_contra hlt
        have h : updateState s false t = s := by
          simp [updateState, hm, hlt]
        exact hne (by rw [h])
      · intro ht
        have h : (updateState s false t).stepIndex =
            if s.stepIndex + 1 > STEP_ALL then STEP_OFF else s.stepIndex + 1 := by
          simp [updateState, hm, ht]
        rw [h]
        simp only [STEP_OFF, STEP_ALL]
        split_ifs <;> omega
    · intro ht
      simp [updateState, hm, ht]
  · intro hm
    rw [updateState_off s t hm]

/-- Claim C4 witness: at a lit state with ledTimer 0 and millis 300 the
advance criterion is met and ledTimer is reloaded; at a dark state the
step is unchanged after an arbitrarily long wait. -/
theorem claim_C4_interval_advance_witness :
    ((updateState ⟨true, HIGH, 0, 0, STEP_OFF⟩ false 300).stepIndex ≠ STEP_OFF ↔
      LED_INTERVAL_MS ≤ sub32 300 0) ∧
    (updateState ⟨true, HIGH, 0, 0, STEP_OFF⟩ false 300).ledTimer = 300 ∧
    (updateState ⟨false, HIGH, 0, 5, STEP_LED2⟩ false 1000000).stepIndex = STEP_LED2 := by
  refine ⟨?_, ?_, ?_⟩
  · exact ((claim_C4_interval_advance ⟨true, HIGH, 0, 0, STEP_OFF⟩ 300).1 rfl).1
  · exact ((claim_C4_interval_advance ⟨true, HIGH, 0, 0, STEP_OFF⟩ 300).1 rfl).2
      (by decide)
  · exact (claim_C4_interval_advance ⟨false, HIGH, 0, 5, STEP_LED2⟩ 1000000).2 rfl

/-- Claim C5 counterexample: the three functions are not pure functions of
their explicit arguments.  outputLEDs takes no argument in the sketch
yet returns different LED levels for different hidden global states,
and readSwitch mutates the hidden globals (here lastSwState and
lastSwTime). -/
theorem claim_C5_counterexample :
    outputLEDs ⟨true, HIGH, 0, 0, STEP_LED1⟩ ≠ outputLEDs initState ∧
    (readSwitch initState LOW 5).2 ≠ initState := by
  decide

/-- Claim C5 amended: each function is a deterministic function of its
explicit arguments, the millis reading, and a fixed slice of the
globals, and touches nothing else: readSwitch reads and writes only
lastSwState and lastSwTime; updateState reads and writes only mode,
stepIndex and ledTimer; outputLEDs reads only mode and stepIndex. -/
theorem claim_C5_amended_state_slices :
    (∀ (s1 s2 : State) (pin : Bool) (t : Nat),
      s1.lastSwState = s2.lastSwState → s1.lastSwTime = s2.lastSwTime →
      (readSwitch s1 pin t).1 = (readSwitch s2 pin t).1 ∧
      (readSwitch s1 pin t).2.lastSwState = (readSwitch s2 pin t).2.lastSwState ∧
      (readSwitch s1 pin t).2.lastSwTime = (readSwitch s2 pin t).2.lastSwTime) ∧
    (∀ (s : State) (pin : Bool) (t : Nat),
      (readSwitch s pin t).2.mode = s.mode ∧
      (readSwitch s pin t).2.ledTimer = s.ledTimer ∧
      (readSwitch s pin t).2.stepIndex = s.stepIndex) ∧
    (∀ (s1 s2 : State) (p : Bool) (t : Nat),
      s1.mode = s2.mode → s1.stepIndex = s2.stepIndex → s1.ledTimer = s2.ledTimer →
      (updateState s1 p t).mode = (updateState s2 p t).mode ∧
      (updateState s1 p t).stepIndex = (updateState s2 p t).stepIndex ∧
      (updateState s1 p t).ledTimer = (updateState s2 p t).ledTimer) ∧
    (∀ (s : State) (p : Bool) (t : Nat),
      (updateState s p t).lastSwState = s.lastSwState ∧
      (updateState s p t).lastSwTime = s.lastSwTime) ∧
    (∀ s1 s2 : State, s1.mode = s2.mode → s1.stepIndex = s2.stepIndex →
      outputLEDs s1 = outputLEDs s2) := by
  refine ⟨?_, ?_, ?_, ?_, ?_⟩
  · rintro ⟨m1, ls1, lt1, led1, st1⟩ ⟨m2, ls2, lt2, led2, st2⟩ pin t h1 h2
    cases h1; cases h2
    exact ⟨rfl, rfl, rfl⟩
  · intro s pin t
    exact ⟨rfl, rfl, rfl⟩
  · rintro ⟨m1, ls1, lt1, led1, st1⟩ ⟨m2, ls2, lt2, led2, st2⟩ p t h1 h2 h3
    cases h1; cases h2; cases h3
    cases p
    · by_cases ht : LED_INTERVAL_MS ≤ sub32 t led1 <;>
        cases m1 <;> simp [updateState, ht]
    · cases m1 <;> simp [updateState, sub32_self, LED_INTERVAL_MS]
  · intro s p t
    cases p <;> cases hm : s.mode <;>
      by_cases ht : LED_INTERVAL_MS ≤ sub32 t s.ledTimer <;>
      by_cases ht2 : LED_INTERVAL_MS ≤ sub32 t t <;>
      simp [updateState, hm, ht, ht2]
  · rintro ⟨m1, ls1, lt1, led1, st1⟩ ⟨m2, ls2, lt2, led2, st2⟩ h1 h2
    cases h1; cases h2
    rfl

/-- Claim C5 amended witness: readSwitch agrees across two states sharing
only the switch slice, updateState agrees across two states sharing
only the timer slice, and outputLEDs agrees across two states sharing
only mode and stepIndex. -/
theorem claim_C5_amended_state_slices_witness :
    (readSwitch ⟨false, HIGH, 3, 10, STEP_OFF⟩ LOW 100).1 =
      (readSwitch ⟨true, HIGH, 3, 99, STEP_ALL⟩ LOW 100).1 ∧
    (updateState ⟨true, HIGH, 3, 0, STEP_OFF⟩ false 300).stepIndex =
      (updateState ⟨true, LOW, 77, 0, STEP_OFF⟩ false 300).stepIndex ∧
    outputLEDs ⟨true, HIGH, 3, 10, STEP_LED3⟩ =
      outputLEDs ⟨true, LOW, 8, 99, STEP_LED3⟩ := by
  refine ⟨?_, ?_, ?_⟩
  · exact (claim_C5_amended_state_slices.1 _ _ LOW 100 rfl rfl).1
  · exact (claim_C5_amended_state_slices.2.2.1 _ _ false 300 rfl rfl rfl).2.1
  · exact claim_C5_amended_state_slices.2.2.2.2 _ _ rfl rfl

/-- Claim C6: the LED levels are a function of (mode, stepIndex) alone, and
any two reachable states that agree on (mode, stepIndex) — hence
differ at most in lastSwState, lastSwTime and ledTimer — produce
identical LED output traces on every future input sequence: a machine
carrying just the mode flag and the step index simulates the loop's
observable behaviour. -/
theorem claim_C6_mode_step_abstraction :
    (∀ s1 s2 : State, s1.mode = s2.mode → s1.stepIndex = s2.stepIndex →
      outputLEDs s1 = outputLEDs s2) ∧
    (∀ (s1 s2 : State) (ins : List (Bool × Nat)),
      Reachable s1 → Reachable s2 →
      s1.mode = s2.mode → s1.stepIndex = s2.stepIndex →
      ledTrace s1 ins = ledTrace s2 ins) := by
  constructor
  · rintro ⟨m1, ls1, lt1, led1, st1⟩ ⟨m2, ls2, lt2, led2, st2⟩ h1 h2
    cases h1; cases h2
    rfl
  · intro s1 s2 ins h1 h2 _ _
    rw [ledTrace_dark ins s1 h1, ledTrace_dark ins s2 h2]

/-- Claim C6 witness: two lit states differing only in the hidden switch and
timer globals give the same LED levels, and the initial state and the
state after one iteration (whose lastSwState differs) give the same
output trace on a two-step input sequence. -/
theorem claim_C6_mode_step_abstraction_witness :
    outputLEDs ⟨true, HIGH, 0, 0, STEP_LED1⟩ =
      outputLEDs ⟨true, LOW, 9, 500, STEP_LED1⟩ ∧
    ledTrace initState [(LOW, 100), (HIGH, 200)] =
      ledTrace (loopStep initState LOW 5).1 [(LOW, 100), (HIGH, 200)] := by
  constructor
  · exact claim_C6_mode_step_abstraction.1 _ _ rfl rfl
  · exact claim_C6_mode_step_abstraction.2 initState (loopStep initState LOW 5).1
      [(LOW, 100), (HIGH, 200)] Reachable.init
      (Reachable.step initState LOW 5 Reachable.init) (by decide) (by decide)

/-- Claim C8: updateState with swPressed = false in dark mode is the
identity on the whole state, for every millis value. -/
theorem claim_C8_dark_no_press_is_noop (s : State) (t : Nat)
    (h : s.mode = false) :
    updateState s false t = s :=
  updateState_off s t h

/-- Claim C8 witness: the no-op at the initial state with a large elapsed
time. -/
theorem claim_C8_dark_no_press_is_noop_witness :
    updateState initState false 1000000 = initState :=
  claim_C8_dark_no_press_is_noop initState 1000000 rfl

/-- Claim C9: for true (unwrapped) times T1 ≤ T2 whose difference is below
2^32, the modular-subtraction tests the code performs on the wrapped
millis values (line 81 and line 113) agree with the tests on the true
elapsed time, even when the counter wraps past 2^32 - 1. -/
theorem claim_C9_wraparound_tests (T1 T2 : Nat) (hle : T1 ≤ T2)
    (hlt : T2 - T1 < 4294967296) :
    ((DEBOUNCE_MS < sub32 (T2 % 4294967296) (T1 % 4294967296)) ↔
      DEBOUNCE_MS < T2 - T1) ∧
    ((LED_INTERVAL_MS ≤ sub32 (T2 % 4294967296) (T1 % 4294967296)) ↔
      LED_INTERVAL_MS ≤ T2 - T1) := by
  have h : sub32 (T2 % 4294967296) (T1 % 4294967296) = T2 - T1 := by
    unfold sub32; omega
  rw [h]
  exact ⟨Iff.rfl, Iff.rfl⟩

/-- Claim C9 witness: a press 30 ms after a moment 6 ms before the counter
wraps: the wrapped readings are 4294967290 and 24, and both tests
agree with the true elapsed time of 30 ms. -/
theorem claim_C9_wraparound_tests_witness :
    ((DEBOUNCE_MS < sub32 (4294967320 % 4294967296) (4294967290 % 4294967296)) ↔
      DEBOUNCE_MS < 4294967320 - 4294967290) ∧
    ((LED_INTERVAL_MS ≤ sub32 (4294967320 % 4294967296) (4294967290 % 4294967296)) ↔
      LED_INTERVAL_MS ≤ 4294967320 - 4294967290) :=
  claim_C9_wraparound_tests 4294967290 4294967320 (by decide) (by decide)

end LedBlinkSW
